import Mathlib

/-!
Verification of the video genuinity-scoring pipeline.

Shallow embedding of the orchestration code: `VideoService.get_video_files`,
`VideoService.select_random_videos`, `VideoService.analyze_videos`
(app/services/video_service.py) and `APIService.analyze_video`
(app/services/api_service.py). External effects (filesystem listing, random
sampling, base64 encoding, the remote analysis RPC, PDF generation) are
passed in as oracle functions collected in `Env`; numbers are rationals.
-/

namespace GenScore

/-- A detailed error record, from `DetailedError` in app/schemas/video_schema.py. -/
structure DetailedError where
  error_type : String
  from_time : ℚ
  to_time : ℚ
  confidence : ℚ
  deriving Repr, DecidableEq

/-- `VideoAnalysisResponse` from app/schemas/video_schema.py; `errors_summary`
(a dict of dicts in Python) is an association list, the timestamp a string. -/
structure VideoAnalysisResponse where
  video_name : String
  total_duration : ℚ
  genuinity_score : ℚ
  total_penalty : ℚ
  errors_summary : List (String × List (String × ℚ))
  detailed_errors : List DetailedError
  analysis_timestamp : String
  deriving Repr, DecidableEq

/-- One entry of `analysis_results` built in the loop of `analyze_videos`
(video_service.py lines 96-101). -/
structure ScoreEntry where
  video_name : String
  genuinity_score : ℚ
  total_duration : ℚ
  total_penalty : ℚ
  deriving Repr, DecidableEq

/-- The dict returned by `analyze_videos`. The two error returns carry only
`status` and `message`; the success return fills every key, so all other
keys are `Option`s that are `none` exactly when the key is absent.
`pdf_report_path = some none` models the key present with value `None`. -/
structure AnalyzeResult where
  status : String
  message : String
  interview_id : Option String := none
  videos_analyzed : Option Nat := none
  average_genuinity_score : Option ℚ := none
  individual_scores : Option (List ScoreEntry) := none
  pdf_report_path : Option (Option String) := none
  deriving Repr, DecidableEq

/-- A directory entry as seen by `Path.iterdir`: a name and whether it is a
regular file. -/
structure FileEntry where
  name : String
  isFile : Bool
  deriving Repr, DecidableEq

/-- The external world of one pipeline run: configuration
(app/config.py) plus oracles for every effect the service performs.
`fs` maps a folder path to its listing (`none` = folder does not exist);
`sample` is the outcome of `random.sample`; `encode` is `video_to_base64`
(may raise); `api` is `APIService.analyze_video` on the encoded payload
(may raise); `pdf` is `PDFService.generate_report` (may raise). -/
structure Env where
  video_base_path : String
  num_random_videos : Nat
  fs : String → Option (List FileEntry)
  sample : List String → Nat → List String
  encode : String → Except String String
  api : String → String → Except String VideoAnalysisResponse
  pdf : String → ℚ → List ScoreEntry → List VideoAnalysisResponse → Except String String

/-- True on `.ok`, false on `.error`: whether a Python call returned
rather than raised. -/
def exceptOk {ε α : Type} : Except ε α → Bool
  | .ok _ => true
  | .error _ => false

/-- The video-extension allow-list (video_service.py line 30). -/
def video_extensions : List String := [".mp4", ".avi", ".mov", ".mkv", ".flv", ".wmv"]

/-- Index of the last occurrence of `c` in `cs`, if any. -/
def lastIdxOf (c : Char) (cs : List Char) : Option Nat :=
  ((List.range cs.length).filter (fun i => cs.getD i ' ' = c)).getLast?

/-- `pathlib.PurePath.suffix`: the substring from the last dot of the final
component, empty when the last dot is the first character or the last. -/
def pathSuffix (name : String) : String :=
  match lastIdxOf '.' name.data with
  | none => ""
  | some i => if 0 < i ∧ i + 1 < name.data.length then ⟨name.data.drop i⟩ else ""

/-- Lowercase a string character-wise, as `str.lower` does on ASCII. -/
def strToLower (s : String) : String := ⟨s.data.map Char.toLower⟩

/-- `Path(base) / id`, for a relative `id`, rendered as a string. -/
def joinPath (base id : String) : String := base ++ "/" ++ id

/-- `VideoService.get_video_files` (video_service.py lines 21-38): list the
interview folder, keep regular files whose lowercased suffix is in the
allow-list, return their full paths; an absent folder yields `[]`. -/
def get_video_files (fs : String → Option (List FileEntry)) (base interview_id : String) :
    List String :=
  let video_folder := joinPath base interview_id
  match fs video_folder with
  | none => []
  | some entries =>
      (entries.filter (fun f => f.isFile && video_extensions.contains (strToLower (pathSuffix f.name)))).map
        (fun f => joinPath video_folder f.name)

/-- `VideoService.select_random_videos` (video_service.py lines 40-52):
default the count, return everything when the list is short enough,
otherwise defer to `random.sample` (the `sample` oracle). -/
def select_random_videos (sample : List String → Nat → List String) (default_n : Nat)
    (video_files : List String) (num_videos : Option Nat) : List String :=
  let n := num_videos.getD default_n
  if video_files.length ≤ n then video_files
  else sample video_files n

/-- `os.path.basename`: the part after the last slash. -/
def basename (p : String) : String :=
  ⟨p.data.foldl (fun acc c => if c = '/' then [] else acc ++ [c]) []⟩

/-- Split a path string at slashes into its segments, as `str.split("/")`
and path-component iteration do. -/
def splitSegs (s : String) : List String :=
  let r := s.data.foldl
    (fun (acc : List String × List Char) c =>
      if c = '/' then (acc.1 ++ [⟨acc.2⟩], []) else (acc.1, acc.2 ++ [c]))
    ([], [])
  r.1 ++ [⟨r.2⟩]

/-- The body of the loop in `analyze_videos` (lines 84-107) for one path:
encode, then call the API; either step may raise. -/
def processOne (env : Env) (video_path : String) : Except String VideoAnalysisResponse :=
  match env.encode video_path with
  | .error e => .error e
  | .ok b64 => env.api b64 (basename video_path)

/-- The summary dict appended to `analysis_results` (lines 96-101). -/
def mkEntry (video_path : String) (a : VideoAnalysisResponse) : ScoreEntry :=
  { video_name := basename video_path
    genuinity_score := a.genuinity_score
    total_duration := a.total_duration
    total_penalty := a.total_penalty }

/-- The whole loop of `analyze_videos` (lines 84-107): accumulate
`analysis_results` and `detailed_analyses` in order, skipping any path
whose processing raised. -/
def processVideos (env : Env) : List String → List ScoreEntry × List VideoAnalysisResponse
  | [] => ([], [])
  | p :: rest =>
    match processOne env p with
    | .error _ => processVideos env rest
    | .ok a => ((mkEntry p a) :: (processVideos env rest).1, a :: (processVideos env rest).2)

/-- The `try/except` around `generate_report` (lines 119-129): the returned
path on success, `None` when the call raised. -/
def pdfResult (x : Except String String) : Option String :=
  match x with
  | .ok p => some p
  | .error _ => none

/-- Round half to even, the tie rule of Python `round`. -/
def roundHalfEven (q : ℚ) : ℤ :=
  let n := ⌊q⌋
  let r := q - (n : ℚ)
  if r < 1/2 then n
  else if 1/2 < r then n + 1
  else if n % 2 = 0 then n else n + 1

/-- Python `round(x, 4)`. -/
def round4 (q : ℚ) : ℚ := (roundHalfEven (q * 10000) : ℚ) / 10000

/-- The `video_files` local of `analyze_videos` (line 69). -/
def candidatesOf (env : Env) (interview_id : String) : List String :=
  get_video_files env.fs env.video_base_path interview_id

/-- The `selected_videos` local of `analyze_videos` (line 78). -/
def selectedOf (env : Env) (interview_id : String) (num_videos : Option Nat) : List String :=
  select_random_videos env.sample env.num_random_videos (candidatesOf env interview_id) num_videos

/-- The pair `(analysis_results, detailed_analyses)` after the loop (lines 81-107). -/
def resultsOf (env : Env) (interview_id : String) (num_videos : Option Nat) :
    List ScoreEntry × List VideoAnalysisResponse :=
  processVideos env (selectedOf env interview_id num_videos)

/-- The genuinity scores of exactly the sampled items whose processing
succeeded, in sample order. -/
def successScoresOf (env : Env) (interview_id : String) (num_videos : Option Nat) : List ℚ :=
  (selectedOf env interview_id num_videos).filterMap
    (fun p => match processOne env p with
              | .ok a => some a.genuinity_score
              | .error _ => none)

/-- `VideoService.analyze_videos` (video_service.py lines 66-139). -/
def analyze_videos (env : Env) (interview_id : String) (num_videos : Option Nat) :
    AnalyzeResult :=
  if (candidatesOf env interview_id).isEmpty then
    { status := "error"
      message := "No videos found for interview_id: " ++ interview_id }
  else
    let analysis_results := (resultsOf env interview_id num_videos).1
    if analysis_results.isEmpty then
      { status := "error", message := "Failed to analyze any videos" }
    else
      let avg := (analysis_results.map (fun r => r.genuinity_score)).sum / (analysis_results.length : ℚ)
      let pdf_path : Option String :=
        pdfResult (env.pdf interview_id avg analysis_results (resultsOf env interview_id num_videos).2)
      { interview_id := some interview_id
        videos_analyzed := some analysis_results.length
        average_genuinity_score := some (round4 avg)
        individual_scores := some analysis_results
        status := "success"
        message := "Successfully analyzed " ++ toString analysis_results.length ++ " videos"
        pdf_report_path := some pdf_path }

/-- The raw JSON `data` object of a remote analysis response
(api_service.py lines 34-56); absent fields are `none` and default in
`api_analyze_video` exactly as the `.get(..., default)` calls do. -/
structure ApiData where
  total_duration : Option ℚ
  genuinity_score : Option ℚ
  total_penalty : Option ℚ
  errors_summary : List (String × List (String × ℚ))
  detailed_errors : List DetailedError
  analysis_timestamp : Option String
  deriving Repr, DecidableEq

/-- A decoded remote response body; `data = none` models a missing or
empty `data` field (`if not data: raise`). -/
structure ApiResponse where
  data : Option ApiData
  deriving Repr, DecidableEq

/-- `APIService.analyze_video` (api_service.py lines 10-68): the transport
outcome arrives as an `Except` (a transport fault re-raises), a
missing `data` object raises `ValueError`, and otherwise each field is
copied out of `data` with the same defaults as the code; `now` is the
current time used when the timestamp is absent. -/
def api_analyze_video (resp : Except String ApiResponse) (video_name : String) (now : String) :
    Except String VideoAnalysisResponse :=
  match resp with
  | .error e => .error e
  | .ok r =>
    match r.data with
    | none => .error "API response missing the data field"
    | some d =>
        .ok { video_name := video_name
              total_duration := d.total_duration.getD 0
              genuinity_score := d.genuinity_score.getD 0
              total_penalty := d.total_penalty.getD 0
              errors_summary := d.errors_summary
              detailed_errors := d.detailed_errors
              analysis_timestamp := d.analysis_timestamp.getD now }

/-- The spec invariant on a `VideoAnalysis`: every key of `errors_summary`
appears as the category of some detailed error. -/
def errorsInvariant (va : VideoAnalysisResponse) : Bool :=
  va.errors_summary.all (fun kv => va.detailed_errors.any (fun e => e.error_type = kv.1))

/-- OS-level resolution of a path given as segments: `..` pops the last
segment, `.` and empty segments are dropped. The directory the operating
system actually accesses when the code touches `Path(base) / interview_id`
is the resolution of the joined segment list. -/
def resolveSegs (segs : List String) : List String :=
  segs.foldl
    (fun acc s =>
      if s = ".." then acc.dropLast
      else if s = "." then acc
      else if s = "" then acc
      else acc ++ [s]) []

/-- The directory accessed by `get_video_files`, in resolved segment form:
the code joins `base / interview_id` verbatim (video_service.py line 23),
so the accessed directory is the OS resolution of that join. -/
def accessedFolderSegs (base : List String) (interview_id : String) : List String :=
  resolveSegs (base ++ splitSegs interview_id)

/- Concrete environments used by witnesses and counterexamples. -/

/-- A filesystem with one interview folder of three videos. -/
def wfs : String → Option (List FileEntry) := fun p =>
  if p = "ROOT/i1" then
    some [⟨"a.mp4", true⟩, ⟨"b.mp4", true⟩, ⟨"c.mp4", true⟩]
  else none

/-- Environment whose every sampled item analyzes successfully with scores
8, 6, 7 and whose PDF generation succeeds. -/
def wEnvOk : Env :=
  { video_base_path := "ROOT"
    num_random_videos := 3
    fs := wfs
    sample := fun l k => l.take k
    encode := fun p => .ok ("B64:" ++ p)
    api := fun _ name =>
      if name = "a.mp4" then .ok ⟨name, 10, 8, 0, [], [], "t"⟩
      else if name = "b.mp4" then .ok ⟨name, 10, 6, 0, [], [], "t"⟩
      else .ok ⟨name, 10, 7, 0, [], [], "t"⟩
    pdf := fun _ _ _ _ => .ok "reports/i1.pdf" }

/-- Like `wEnvOk` but encoding of `b.mp4` raises: one of three items fails. -/
def wEnvOneFail : Env :=
  { wEnvOk with encode := fun p => if p = "ROOT/i1/b.mp4" then .error "enc" else .ok ("B64:" ++ p) }

/-- Like `wEnvOk` but every API call raises. -/
def wEnvAllFail : Env :=
  { wEnvOk with api := fun _ _ => .error "transport" }

/-- Environment over an empty storage: no interview folder exists. -/
def wEnvEmpty : Env :=
  { wEnvOk with fs := fun _ => none }

/-- A filesystem that exposes a folder at the traversal path
`/data/videos/../../etc`, to observe that the locator queries it verbatim. -/
def c7fs : String → Option (List FileEntry) := fun p =>
  if p = "/data/videos/../../etc" then some [⟨"x.mp4", true⟩] else none

/-- A filesystem exercising the extension allow-list and case handling. -/
def c8fs : String → Option (List FileEntry) := fun p =>
  if p = "ROOT/i2" then
    some [⟨"a.MP4", true⟩, ⟨"b.txt", true⟩, ⟨"c.mov", false⟩, ⟨"d.wmv", true⟩, ⟨"noext", true⟩]
  else none

/-- Remote response data violating the errors invariant: a summary key with
no matching detailed error. -/
def c9dataBad : ApiData :=
  { total_duration := some 10
    genuinity_score := some 8
    total_penalty := some 1
    errors_summary := [("blink", [("count", 3)])]
    detailed_errors := []
    analysis_timestamp := some "2024-01-01T00:00:00" }

/-- The `VideoAnalysisResponse` the client builds from `c9dataBad`. -/
def c9vaBad : VideoAnalysisResponse :=
  { video_name := "v.mp4"
    total_duration := 10
    genuinity_score := 8
    total_penalty := 1
    errors_summary := [("blink", [("count", 3)])]
    detailed_errors := []
    analysis_timestamp := "2024-01-01T00:00:00" }

/-- Remote response data satisfying the errors invariant. -/
def c9dataGood : ApiData :=
  { c9dataBad with detailed_errors := [⟨"blink", 0, 1, 1⟩] }

/-- The `VideoAnalysisResponse` the client builds from `c9dataGood`. -/
def c9vaGood : VideoAnalysisResponse :=
  { c9vaBad with detailed_errors := [⟨"blink", 0, 1, 1⟩] }

/-- The `analysis_results` entries of a `wEnvOk` run. -/
def c5entries : List ScoreEntry :=
  [⟨"a.mp4", 8, 10, 0⟩, ⟨"b.mp4", 6, 10, 0⟩, ⟨"c.mp4", 7, 10, 0⟩]

/- Helper lemmas. -/

/-- If every sampled item fails, the loop accumulates nothing. -/
theorem processVideos_all_fail (env : Env) (l : List String)
    (h : ∀ p ∈ l, exceptOk (processOne env p) = false) :
    processVideos env l = ([], []) := by
  induction l with
  | nil => rfl
  | cons p rest ih =>
    have hp := h p (List.mem_cons_self p rest)
    cases hpo : processOne env p with
    | error e =>
        simp only [processVideos, hpo]
        exact ih (fun q hq => h q (List.mem_cons_of_mem p hq))
    | ok a => rw [hpo] at hp; simp [exceptOk] at hp

/-- The loop accumulates one summary entry per sampled item whose
processing succeeded. -/
theorem processVideos_length (env : Env) (l : List String) :
    (processVideos env l).1.length = l.countP (fun p => exceptOk (processOne env p)) := by
  induction l with
  | nil => rfl
  | cons p rest ih =>
    cases hpo : processOne env p with
    | error e => simp [processVideos, hpo, List.countP_cons, exceptOk, ih]
    | ok a => simp [processVideos, hpo, List.countP_cons, exceptOk, ih]

/-- The genuinity scores accumulated by the loop are exactly the scores of
the successfully processed items, in order. -/
theorem processVideos_scores (env : Env) (l : List String) :
    (processVideos env l).1.map (fun r => r.genuinity_score) =
      l.filterMap (fun p => match processOne env p with
                            | .ok a => some a.genuinity_score
                            | .error _ => none) := by
  induction l with
  | nil => rfl
  | cons p rest ih =>
    cases hpo : processOne env p with
    | error e => simp [processVideos, hpo, List.filterMap_cons, ih]
    | ok a => simp [processVideos, hpo, List.filterMap_cons, ih, mkEntry]

/-- The loop does not read the PDF oracle. -/
theorem processVideos_pdf_irrel (env : Env)
    (pf : String → ℚ → List ScoreEntry → List VideoAnalysisResponse → Except String String)
    (l : List String) :
    processVideos { env with pdf := pf } l = processVideos env l := by
  induction l with
  | nil => rfl
  | cons p rest ih =>
    have hpo : processOne { env with pdf := pf } p = processOne env p := rfl
    cases hx : processOne env p with
    | error e => simp [processVideos, hpo, hx, ih]
    | ok a => simp [processVideos, hpo, hx, ih]

/-- A raising PDF call yields `pdf_path = None`. -/
theorem pdfResult_none (x : Except String String) (h : exceptOk x = false) :
    pdfResult x = none := by
  cases x with
  | ok p => simp [exceptOk] at h
  | error e => rfl

/-- The all-failed message differs from every no-videos message. -/
theorem messages_distinct (interview_id : String) :
    ("Failed to analyze any videos" : String) ≠
      "No videos found for interview_id: " ++ interview_id := by
  intro h
  have h2 := congrArg String.data h
  rw [String.data_append] at h2
  simp at h2

/-- Sampling from an empty candidate list yields the empty list. -/
theorem select_random_videos_nil (sample : List String → Nat → List String)
    (default_n : Nat) (num_videos : Option Nat) :
    select_random_videos sample default_n [] num_videos = [] := by
  simp [select_random_videos]

/-- `List.take` satisfies the `random.sample` contract; used to discharge
sampler hypotheses at concrete inputs. -/
theorem take_sample_spec (l : List String) (k : Nat) (hk : k ≤ l.length) :
    ((l.take k).length = k ∧ (l.take k).Subperm l) :=
  ⟨by rw [List.length_take]; exact Nat.min_eq_left hk, (List.take_sublist k l).subperm⟩

/-- Claim C2: for every interview id whose located candidate list is empty,
`analyze_videos` returns status "error" with a message identifying that no
videos were found, and makes no AnalysisClient call and no sampling beyond
the empty check: the result is unchanged under arbitrary replacement of the
sampling, encoding, API and PDF oracles. -/
theorem C2_no_candidates (env : Env) (interview_id : String) (num_videos : Option Nat)
    (h : candidatesOf env interview_id = []) :
    analyze_videos env interview_id num_videos =
      { status := "error", message := "No videos found for interview_id: " ++ interview_id } ∧
    ∀ sample2 encode2 api2 pdf2 nrv2,
      analyze_videos
        { env with sample := sample2, encode := encode2, api := api2, pdf := pdf2,
                   num_random_videos := nrv2 } interview_id num_videos
        = analyze_videos env interview_id num_videos := by
  have he : (candidatesOf env interview_id).isEmpty = true := by rw [h]; rfl
  constructor
  · simp only [analyze_videos]
    rw [if_pos he]
  · intro sample2 encode2 api2 pdf2 nrv2
    have hc : candidatesOf
        { env with sample := sample2, encode := encode2, api := api2, pdf := pdf2,
                   num_random_videos := nrv2 } interview_id
        = candidatesOf env interview_id := rfl
    simp only [analyze_videos, hc]
    rw [if_pos he, if_pos he]

/-- Claim C2 witness: a run over empty storage returns the no-videos error. -/
theorem C2_no_candidates_witness :
    candidatesOf wEnvEmpty "i9" = [] ∧
    analyze_videos wEnvEmpty "i9" none =
      { status := "error", message := "No videos found for interview_id: i9" } :=
  ⟨rfl, by rw [(C2_no_candidates wEnvEmpty "i9" none rfl).1]; decide⟩

/-- Claim C3: if the sampled list is non-empty and every item fails,
`analyze_videos` returns the all-failed error, whose message differs from
the no-videos message for every interview id. -/
theorem C3_all_failed (env : Env) (interview_id : String) (num_videos : Option Nat)
    (hne : selectedOf env interview_id num_videos ≠ [])
    (hfail : ∀ p ∈ selectedOf env interview_id num_videos,
      exceptOk (processOne env p) = false) :
    analyze_videos env interview_id num_videos =
      { status := "error", message := "Failed to analyze any videos" } ∧
    ∀ id2 : String,
      ("Failed to analyze any videos" : String) ≠
        "No videos found for interview_id: " ++ id2 := by
  refine ⟨?_, fun id2 => messages_distinct id2⟩
  have hcand : ¬ ((candidatesOf env interview_id).isEmpty = true) := by
    intro hc
    apply hne
    have hnil : candidatesOf env interview_id = [] := List.isEmpty_iff.mp hc
    unfold selectedOf
    rw [hnil]
    exact select_random_videos_nil env.sample env.num_random_videos num_videos
  have hres : (resultsOf env interview_id num_videos).1 = [] := by
    unfold resultsOf
    rw [processVideos_all_fail env _ hfail]
  simp only [analyze_videos]
  rw [if_neg hcand, hres]
  rfl

/-- Claim C3 witness: a run where every API call raises returns the
all-failed error. -/
theorem C3_all_failed_witness :
    selectedOf wEnvAllFail "i1" none ≠ [] ∧
    analyze_videos wEnvAllFail "i1" none =
      { status := "error", message := "Failed to analyze any videos" } :=
  ⟨by decide, (C3_all_failed wEnvAllFail "i1" none (by decide) (by decide)).1⟩

/-- Claim C10: every result of `analyze_videos` either has status "success"
with `videos_analyzed` equal to the length of `individual_scores` and at
least 1 (so the mean's divisor is strictly positive), or has status "error"
and carries no `videos_analyzed`, no average and no `individual_scores`. -/
theorem C10_result_shape (env : Env) (interview_id : String) (num_videos : Option Nat) :
    (∃ scores,
      (analyze_videos env interview_id num_videos).status = "success" ∧
      (analyze_videos env interview_id num_videos).videos_analyzed = some scores.length ∧
      (analyze_videos env interview_id num_videos).individual_scores = some scores ∧
      1 ≤ scores.length) ∨
    ((analyze_videos env interview_id num_videos).status = "error" ∧
      (analyze_videos env interview_id num_videos).videos_analyzed = none ∧
      (analyze_videos env interview_id num_videos).average_genuinity_score = none ∧
      (analyze_videos env interview_id num_videos).individual_scores = none) := by
  by_cases h1 : (candidatesOf env interview_id).isEmpty = true
  · right
    simp only [analyze_videos]
    rw [if_pos h1]
    exact ⟨rfl, rfl, rfl, rfl⟩
  · by_cases h2 : (resultsOf env interview_id num_videos).1.isEmpty = true
    · right
      simp only [analyze_videos]
      rw [if_neg h1, if_pos h2]
      exact ⟨rfl, rfl, rfl, rfl⟩
    · left
      refine ⟨(resultsOf env interview_id num_videos).1, ?_⟩
      simp only [analyze_videos]
      rw [if_neg h1, if_neg h2]
      refine ⟨rfl, rfl, rfl, ?_⟩
      have : (resultsOf env interview_id num_videos).1 ≠ [] := by
        intro hnil
        rw [hnil] at h2
        exact h2 rfl
      exact List.length_pos.mpr this

/-- Claim C1: if exactly `k` of the `m` sampled items fail during encoding
or the API call, with `0 < k < m`, the run succeeds with
`videos_analyzed = m - k` and the average taken over exactly the `m - k`
successful scores. -/
theorem C1_partial_failure (env : Env) (interview_id : String) (num_videos : Option Nat)
    (k : Nat)
    (hk : k = (selectedOf env interview_id num_videos).countP
            (fun p => !(exceptOk (processOne env p))))
    (h0 : 0 < k) (hkm : k < (selectedOf env interview_id num_videos).length) :
    (analyze_videos env interview_id num_videos).status = "success" ∧
    (analyze_videos env interview_id num_videos).videos_analyzed =
      some ((selectedOf env interview_id num_videos).length - k) ∧
    (successScoresOf env interview_id num_videos).length =
      (selectedOf env interview_id num_videos).length - k ∧
    (analyze_videos env interview_id num_videos).average_genuinity_score =
      some (round4 ((successScoresOf env interview_id num_videos).sum /
        (((selectedOf env interview_id num_videos).length - k : ℕ) : ℚ))) := by
  have hcount : (selectedOf env interview_id num_videos).countP
      (fun p => exceptOk (processOne env p)) =
      (selectedOf env interview_id num_videos).length - k := by
    have htot := List.length_eq_countP_add_countP
      (fun p => exceptOk (processOne env p)) (selectedOf env interview_id num_videos)
    have hnotP : (selectedOf env interview_id num_videos).countP
        (fun p => decide ¬(exceptOk (processOne env p) = true)) = k := by
      rw [hk]
      apply List.countP_congr
      intro p _
      cases hx : exceptOk (processOne env p) <;> simp
    omega
  have hscores : (resultsOf env interview_id num_videos).1.map (fun r => r.genuinity_score)
      = successScoresOf env interview_id num_videos :=
    processVideos_scores env (selectedOf env interview_id num_videos)
  have hlen : (resultsOf env interview_id num_videos).1.length =
      (selectedOf env interview_id num_videos).length - k := by
    unfold resultsOf
    rw [processVideos_length env (selectedOf env interview_id num_videos)]
    exact hcount
  have hpos : 0 < (selectedOf env interview_id num_videos).length - k :=
    Nat.sub_pos_of_lt hkm
  have hslen : (successScoresOf env interview_id num_videos).length =
      (selectedOf env interview_id num_videos).length - k := by
    rw [← hscores, List.length_map]
    exact hlen
  have hresne : ¬ ((resultsOf env interview_id num_videos).1.isEmpty = true) := by
    intro hc
    rw [List.isEmpty_iff.mp hc] at hlen
    simp at hlen
    omega
  have hcand : ¬ ((candidatesOf env interview_id).isEmpty = true) := by
    intro hc
    have hnil : selectedOf env interview_id num_videos = [] := by
      unfold selectedOf
      rw [List.isEmpty_iff.mp hc]
      exact select_random_videos_nil env.sample env.num_random_videos num_videos
    rw [hnil] at hkm
    simp at hkm
  refine ⟨?_, ?_, hslen, ?_⟩
  · simp only [analyze_videos]
    rw [if_neg hcand, if_neg hresne]
  · simp only [analyze_videos]
    rw [if_neg hcand, if_neg hresne, hlen]
  · simp only [analyze_videos]
    rw [if_neg hcand, if_neg hresne, hscores, hlen]

/-- Claim C1 witness: with one of three sampled videos failing to encode,
the run succeeds, analyzes 2 videos and averages the two successes. -/
theorem C1_partial_failure_witness :
    (1 : Nat) = (selectedOf wEnvOneFail "i1" none).countP
        (fun p => !(exceptOk (processOne wEnvOneFail p))) ∧
    (analyze_videos wEnvOneFail "i1" none).status = "success" ∧
    (analyze_videos wEnvOneFail "i1" none).videos_analyzed = some 2 ∧
    (analyze_videos wEnvOneFail "i1" none).average_genuinity_score = some (15/2) := by
  have h := C1_partial_failure wEnvOneFail "i1" none 1 (by decide) (by decide) (by decide)
  refine ⟨by decide, h.1, ?_, ?_⟩
  · rw [h.2.1]; decide
  · rw [h.2.2.2]
    have hs : successScoresOf wEnvOneFail "i1" none = [8, 7] := by decide
    have hl : (selectedOf wEnvOneFail "i1" none).length = 3 := by decide
    rw [hs, hl]
    norm_num [round4, roundHalfEven]

/-- Claim C5: whenever `analyze_videos` reports individual scores, their
list is non-empty and the reported average is the arithmetic mean of their
genuinity scores rounded to 4 decimal places. -/
theorem C5_mean (env : Env) (interview_id : String) (num_videos : Option Nat)
    (entries : List ScoreEntry)
    (hs : (analyze_videos env interview_id num_videos).individual_scores = some entries) :
    entries ≠ [] ∧
    (analyze_videos env interview_id num_videos).average_genuinity_score =
      some (round4 ((entries.map (fun r => r.genuinity_score)).sum / (entries.length : ℚ))) := by
  by_cases h1 : (candidatesOf env interview_id).isEmpty = true
  · exfalso
    simp only [analyze_videos] at hs
    rw [if_pos h1] at hs
    exact Option.noConfusion hs
  · by_cases h2 : (resultsOf env interview_id num_videos).1.isEmpty = true
    · exfalso
      simp only [analyze_videos] at hs
      rw [if_neg h1, if_pos h2] at hs
      exact Option.noConfusion hs
    · simp only [analyze_videos] at hs
      rw [if_neg h1, if_neg h2] at hs
      have he : (resultsOf env interview_id num_videos).1 = entries := Option.some.inj hs
      subst he
      constructor
      · intro hnil
        rw [hnil] at h2
        exact h2 rfl
      · simp only [analyze_videos]
        rw [if_neg h1, if_neg h2]

/-- Claim C5 witness: a run whose three successes score 8, 6 and 7 reports
average 7 (the mean 7.0000). -/
theorem C5_mean_witness :
    (analyze_videos wEnvOk "i1" none).individual_scores = some c5entries ∧
    (analyze_videos wEnvOk "i1" none).average_genuinity_score = some 7 := by
  refine ⟨by decide, ?_⟩
  rw [(C5_mean wEnvOk "i1" none c5entries (by decide)).2]
  have hm : c5entries.map (fun r => r.genuinity_score) = [8, 6, 7] := rfl
  have hl : c5entries.length = 3 := rfl
  rw [hm, hl]
  norm_num [round4, roundHalfEven]

/-- Claim C4: provided the sampling oracle meets the `random.sample`
contract (on `k ≤ |l|` it returns `k` elements forming a sub-permutation),
`select_random_videos` on duplicate-free candidates returns exactly
`min(n, |candidates|)` distinct elements drawn from the candidates, and
returns the full candidate list unchanged whenever `n ≥ |candidates|`. -/
theorem C4_sampler (sample : List String → Nat → List String) (default_n : Nat)
    (files : List String) (num_videos : Option Nat)
    (hs : ∀ (l : List String) (k : Nat), k ≤ l.length →
      (sample l k).length = k ∧ (sample l k).Subperm l)
    (hnd : files.Nodup) (h1 : 1 ≤ num_videos.getD default_n) :
    (select_random_videos sample default_n files num_videos).length
        = min (num_videos.getD default_n) files.length ∧
    (∀ x ∈ select_random_videos sample default_n files num_videos, x ∈ files) ∧
    (select_random_videos sample default_n files num_videos).Nodup ∧
    (files.length ≤ num_videos.getD default_n →
      select_random_videos sample default_n files num_videos = files) := by
  simp only [select_random_videos]
  by_cases hle : files.length ≤ num_videos.getD default_n
  · rw [if_pos hle]
    exact ⟨(Nat.min_eq_right hle).symm, fun x hx => hx, hnd, fun _ => rfl⟩
  · rw [if_neg hle]
    have hlt : num_videos.getD default_n < files.length := Nat.lt_of_not_le hle
    obtain ⟨hlen, hsub⟩ := hs files (num_videos.getD default_n) (Nat.le_of_lt hlt)
    refine ⟨?_, fun x hx => hsub.subset hx, ?_, fun hcontra => absurd hcontra hle⟩
    · rw [hlen]
      exact (Nat.min_eq_left (Nat.le_of_lt hlt)).symm
    · obtain ⟨l2, hperm, hsl⟩ := hsub
      exact hperm.nodup_iff.mp (List.Nodup.sublist hsl hnd)

/-- Claim C4 witness: `take` meets the sampling contract; selecting 2 of 3
distinct candidates yields min(2,3) = 2 distinct elements, and requesting 5
returns the whole list. -/
theorem C4_sampler_witness :
    (["a", "b", "c"] : List String).Nodup ∧
    (select_random_videos (fun l k => l.take k) 2 ["a", "b", "c"] (some 2)).length = min 2 3 ∧
    (select_random_videos (fun l k => l.take k) 2 ["a", "b", "c"] (some 2)).Nodup ∧
    select_random_videos (fun l k => l.take k) 2 ["a", "b", "c"] (some 5) = ["a", "b", "c"] := by
  have h2 := C4_sampler (fun l k => l.take k) 2 ["a", "b", "c"] (some 2)
    (fun l k hk => take_sample_spec l k hk) (by decide) (by decide)
  have h5 := C4_sampler (fun l k => l.take k) 2 ["a", "b", "c"] (some 5)
    (fun l k hk => take_sample_spec l k hk) (by decide) (by decide)
  exact ⟨by decide, h2.1, h2.2.2.1, h5.2.2.2 (by decide)⟩

/-- Claim C6: replacing the PDF oracle of a successful run by one that
always raises leaves the result identical except that `pdf_report_path`
becomes the present-but-null reference, and the status stays "success". -/
theorem C6_report_fault (env : Env)
    (pf : String → ℚ → List ScoreEntry → List VideoAnalysisResponse → Except String String)
    (interview_id : String) (num_videos : Option Nat)
    (hpf : ∀ a b c d, exceptOk (pf a b c d) = false)
    (hstat : (analyze_videos env interview_id num_videos).status = "success") :
    analyze_videos { env with pdf := pf } interview_id num_videos =
      { analyze_videos env interview_id num_videos with pdf_report_path := some none } := by
  have hcand2 : candidatesOf { env with pdf := pf } interview_id
      = candidatesOf env interview_id := rfl
  have hres2 : resultsOf { env with pdf := pf } interview_id num_videos
      = resultsOf env interview_id num_videos :=
    processVideos_pdf_irrel env pf (selectedOf env interview_id num_videos)
  by_cases h1 : (candidatesOf env interview_id).isEmpty = true
  · exfalso
    simp only [analyze_videos] at hstat
    rw [if_pos h1] at hstat
    simp at hstat
  · by_cases h2 : (resultsOf env interview_id num_videos).1.isEmpty = true
    · exfalso
      simp only [analyze_videos] at hstat
      rw [if_neg h1, if_pos h2] at hstat
      simp at hstat
    · simp only [analyze_videos, hcand2, hres2]
      rw [if_neg h1, if_neg h2, if_neg h1, if_neg h2]
      rw [pdfResult_none _ (hpf interview_id _ _ _)]

/-- Claim C6 witness: a fully successful run keeps status "success" and all
fields but gets a null report path when the PDF generator raises. -/
theorem C6_report_fault_witness :
    (analyze_videos wEnvOk "i1" none).status = "success" ∧
    analyze_videos { wEnvOk with pdf := fun _ _ _ _ => .error "pdf down" } "i1" none =
      { analyze_videos wEnvOk "i1" none with pdf_report_path := some none } :=
  ⟨by decide,
   C6_report_fault wEnvOk (fun _ _ _ _ => .error "pdf down") "i1" none
     (fun _ _ _ _ => rfl) (by decide)⟩

/-- Claim C8: `get_video_files` returns the empty list when the interview
folder does not exist, and otherwise returns exactly the paths of the
regular files in it whose lowercased extension is in the allow-list. -/
theorem C8_locator (fs : String → Option (List FileEntry)) (base interview_id : String) :
    (fs (joinPath base interview_id) = none → get_video_files fs base interview_id = []) ∧
    (∀ entries, fs (joinPath base interview_id) = some entries →
      ∀ p, p ∈ get_video_files fs base interview_id ↔
        ∃ e, e ∈ entries ∧ e.isFile = true ∧
          strToLower (pathSuffix e.name) ∈ video_extensions ∧
          p = joinPath (joinPath base interview_id) e.name) := by
  constructor
  · intro h
    simp only [get_video_files]
    rw [h]
  · intro entries h p
    simp only [get_video_files]
    rw [h]
    simp only [List.mem_map, List.mem_filter, Bool.and_eq_true]
    constructor
    · rintro ⟨e, ⟨hmem, hfile, hext⟩, hp⟩
      exact ⟨e, hmem, hfile, List.elem_iff.mp hext, hp.symm⟩
    · rintro ⟨e, hmem, hfile, hext, hp⟩
      exact ⟨e, ⟨hmem, hfile, List.elem_iff.mpr hext⟩, hp.symm⟩

/-- Claim C8 witness: an absent folder yields no candidates; in a folder
with mixed entries the uppercase-extension video is returned (and the
listing of that folder is exactly its two allow-listed regular files). -/
theorem C8_locator_witness :
    get_video_files (fun _ => none) "ROOT" "i2" = [] ∧
    "ROOT/i2/a.MP4" ∈ get_video_files c8fs "ROOT" "i2" := by
  constructor
  · exact (C8_locator (fun _ => none) "ROOT" "i2").1 rfl
  · exact ((C8_locator c8fs "ROOT" "i2").2
      [⟨"a.MP4", true⟩, ⟨"b.txt", true⟩, ⟨"c.mov", false⟩, ⟨"d.wmv", true⟩, ⟨"noext", true⟩]
      rfl "ROOT/i2/a.MP4").mpr
      ⟨⟨"a.MP4", true⟩, by decide, rfl, by decide, rfl⟩

/-- Claim C7: the locator performs neither rejection nor normalization of
traversal segments: the folder string it queries keeps `..` verbatim (so a
filesystem exposing the traversal path is read and its files returned), and
the directory the operating system resolves that join to lies outside the
configured root. -/
theorem C7_traversal_unchecked :
    joinPath "/data/videos" "../../etc" = "/data/videos/../../etc" ∧
    get_video_files c7fs "/data/videos" "../../etc" = ["/data/videos/../../etc/x.mp4"] ∧
    accessedFolderSegs ["data", "videos"] "../../etc" = ["etc"] ∧
    List.isPrefixOf ["data", "videos"]
      (accessedFolderSegs ["data", "videos"] "../../etc") = false := by
  refine ⟨rfl, by decide, by decide, by decide⟩

/-- Claim C9 counterexample: a remote response whose `errors_summary` has a
key with no matching detailed-error category is accepted by
`api_analyze_video` and produces a `VideoAnalysisResponse` violating the
invariant. -/
theorem C9_counterexample :
    api_analyze_video (.ok ⟨some c9dataBad⟩) "v.mp4" "t0" = .ok c9vaBad ∧
    errorsInvariant c9vaBad = false :=
  ⟨rfl, by decide⟩

/-- Claim C9 (amended): `api_analyze_video` copies `errors_summary` and
`detailed_errors` out of the response unvalidated, so for every accepted
response the produced `VideoAnalysisResponse` satisfies the subset
invariant exactly when the response data does: the invariant check on the
output equals the same check on the data. -/
theorem C9_passthrough (resp : ApiResponse) (d : ApiData) (video_name now : String)
    (hd : resp.data = some d) :
    ∀ va, api_analyze_video (.ok resp) video_name now = .ok va →
      errorsInvariant va =
        d.errors_summary.all
          (fun kv => d.detailed_errors.any (fun e => e.error_type == kv.1)) := by
  intro va hva
  simp only [api_analyze_video] at hva
  rw [hd] at hva
  have hv := Except.ok.inj hva
  rw [← hv]
  rfl

/-- Claim C9 amended witness: the biconditional exercised both ways — a
response satisfying the invariant yields an analysis satisfying it, and the
violating response yields a violating analysis. -/
theorem C9_passthrough_witness :
    (⟨some c9dataGood⟩ : ApiResponse).data = some c9dataGood ∧
    errorsInvariant c9vaGood = true ∧
    errorsInvariant c9vaBad = false := by
  refine ⟨rfl, ?_, ?_⟩
  · rw [C9_passthrough ⟨some c9dataGood⟩ c9dataGood "v.mp4" "t0" rfl c9vaGood rfl]
    decide
  · rw [C9_passthrough ⟨some c9dataBad⟩ c9dataBad "v.mp4" "t0" rfl c9vaBad rfl]
    decide

end GenScore
